import Mathlib

set_option maxRecDepth 4000

/-!
Verification of the untagle backend (location-based social service).

This file shallowly embeds the data model and the request handlers of the
backend in Lean and proves properties of the proximity discovery pipeline,
the presence tracker, the coordinate sanitizer and the location ingestion
path.

Embedding conventions:
* JavaScript numbers are modelled as exact rationals (`ℚ`); the special
  values produced by `parseFloat` (`NaN`, `Infinity`, `-Infinity`) are
  modelled by the dedicated type `JSNum`.
* Timestamps (ISO strings in the store, compared chronologically) are
  modelled as integer milliseconds since the epoch; `Date.now()` becomes an
  explicit `now : Int` parameter.
* The relational store reached through the query interface is modelled as
  explicit lists of rows (`Store`); each handler is a pure function of the
  store, the authenticated caller and its inputs.
* The Haversine distance (`haversineDistance` in `src/routes/nearby.ts`) is
  built from `Math.sin`/`Math.cos`/`Math.atan2`, which have no exact
  rational counterpart; it is therefore passed to the pipeline as an
  abstract function `dist : JSNum → JSNum → ℚ → ℚ → Option ℚ`, where
  `none` models a `NaN` result (a `NaN` distance fails the comparison
  `distance <= radiusKm`, exactly as in JavaScript) and `some d` a finite
  result.  `R * atan2(...)` is never `±Infinity`, so these two cases are
  exhaustive.
-/

/-- A JavaScript number as produced by `parseFloat`: `NaN`, `Infinity`,
`-Infinity`, or a finite value (modelled exactly as a rational). -/
inductive JSNum where
  | nan : JSNum
  | inf : JSNum
  | negInf : JSNum
  | num (q : ℚ) : JSNum
deriving DecidableEq

/-- JavaScript `isNaN` on a parsed number. -/
def jsIsNaN : JSNum → Bool
  | JSNum.nan => true
  | _ => false

/-- JavaScript `<` on numbers: any comparison with `NaN` is false;
`-Infinity` is below every non-`NaN` value, `Infinity` above. -/
def jsLt : JSNum → JSNum → Bool
  | JSNum.nan, _ => false
  | _, JSNum.nan => false
  | JSNum.negInf, JSNum.negInf => false
  | JSNum.negInf, _ => true
  | _, JSNum.negInf => false
  | JSNum.inf, _ => false
  | JSNum.num _, JSNum.inf => true
  | JSNum.num a, JSNum.num b => a < b

/-- JavaScript `Math.trunc`: rounds toward zero (floor for non-negative
values, ceiling for negative ones). -/
def jsTrunc (q : ℚ) : ℤ := if 0 ≤ q then ⌊q⌋ else ⌈q⌉

/-- `truncateCoordinate` from `src/lib/supabase.ts`:
`Math.trunc(coord * 10000) / 10000`. -/
def truncateCoordinate (coord : ℚ) : ℚ := (jsTrunc (coord * 10000) : ℚ) / 10000

/-- JavaScript `Math.round(x * 100) / 100` (round half-up to 2 decimals),
as applied to `distance_km` in `src/routes/nearby.ts`. -/
def round2 (q : ℚ) : ℚ := (⌊q * 100 + 1/2⌋ : ℚ) / 100

/-- A row of the `users` table (the columns read by the handlers). -/
structure DbUser where
  id : Nat
  name : Option String
  email : String
  profile_image_url : Option String
  presence_status : String
  last_active_at : Option Int
deriving DecidableEq

/-- A row of the `blocks` table: a directional block record. -/
structure DbBlock where
  blocker_id : Nat
  blocked_id : Nat
  created_at : Int
deriving DecidableEq

/-- A row of the `locations` table (one persisted location fix). -/
structure DbLocation where
  user_id : Nat
  latitude : ℚ
  longitude : ℚ
  accuracy : Option ℚ
  speed : Option ℚ
  heading : Option ℚ
  recorded_at : Int
  created_at : Int
deriving DecidableEq

/-- The relational store: the three tables the proximity/presence core
reads and writes. -/
structure Store where
  users : List DbUser
  blocks : List DbBlock
  locations : List DbLocation
deriving DecidableEq

/-! ### Presence routes (`src/routes/presence.ts`) -/

/-- The per-row effect of the heartbeat update: refresh
`last_active_at`, and set `presence_status` only when a truthy (non-empty)
status string was supplied — mirroring
`if (presenceStatus) updateData.presence_status = presenceStatus`. -/
def heartbeatUpdate (userId : Nat) (presenceStatus : Option String) (now : Int)
    (u : DbUser) : DbUser :=
  if u.id = userId then
    match presenceStatus with
    | some st =>
      if st = "" then { u with last_active_at := some now }
      else { u with presence_status := st, last_active_at := some now }
    | none => { u with last_active_at := some now }
  else u

/-- `POST /presence/heartbeat`: requires the caller to act on its own id
(else 403), then updates the user's row.  The supplied status string is
stored as-is, without validation. -/
def heartbeat (s : Store) (callerId userId : Nat) (presenceStatus : Option String)
    (now : Int) : Except (Nat × String) Store :=
  if callerId ≠ userId then Except.error (403, "Forbidden")
  else Except.ok { s with users := s.users.map (heartbeatUpdate userId presenceStatus now) }

/-- `POST /presence/status`: rejects a missing/empty status or any status
outside `{online, offline}` with 400, else persists it and refreshes
`last_active_at`. -/
def setStatus (s : Store) (callerId : Nat) (status : Option String)
    (now : Int) : Except (Nat × String) Store :=
  match status with
  | none => Except.error (400, "Invalid status")
  | some st =>
    if st = "" ∨ ¬(st = "online" ∨ st = "offline") then
      Except.error (400, "Invalid status")
    else
      Except.ok { s with users := s.users.map (fun u =>
        if u.id = callerId then
          { u with presence_status := st, last_active_at := some now }
        else u) }

/-! ### Location routes (`src/routes/location.ts`) -/

/-- One entry of the client-supplied `locations` array of
`POST /locations/batch`. -/
structure LocationFix where
  latitude : ℚ
  longitude : ℚ
  accuracy : Option ℚ
  speed : Option ℚ
  heading : Option ℚ
  recordedAt : Int
deriving DecidableEq

/-- The sanitisation applied to each fix before insertion
(`processedLocations` in the source): both coordinates are truncated and
the server-received time is stamped. -/
def processLocation (userId : Nat) (now : Int) (loc : LocationFix) : DbLocation :=
  { user_id := userId
    latitude := truncateCoordinate loc.latitude
    longitude := truncateCoordinate loc.longitude
    accuracy := loc.accuracy
    speed := loc.speed
    heading := loc.heading
    recorded_at := loc.recordedAt
    created_at := now }

/-- `POST /locations/batch`: caller must act on its own id (403), the array
must be non-empty (400), the user must exist (404); otherwise all fixes are
sanitised and appended as immutable rows, returning the inserted count. -/
def appendBatch (s : Store) (callerId userId : Nat) (locs : List LocationFix)
    (now : Int) : Except (Nat × String) (Store × Nat) :=
  if callerId ≠ userId then Except.error (403, "Forbidden")
  else if locs.isEmpty then Except.error (400, "Invalid locations data")
  else if ¬(s.users.any (fun u => u.id = userId)) then Except.error (404, "User not found")
  else
    let processed := locs.map (processLocation userId now)
    Except.ok ({ s with locations := s.locations ++ processed }, processed.length)

/-! ### Nearby route (`src/routes/nearby.ts`) -/

/-- The ids blocked in either direction with respect to `me`: rows matching
`blocker_id = me ∨ blocked_id = me`, each contributing the opposite id. -/
def blockedUserIds (s : Store) (me : Nat) : List Nat :=
  (s.blocks.filter (fun b => b.blocker_id = me ∨ b.blocked_id = me)).map
    (fun b => if b.blocker_id = me then b.blocked_id else b.blocker_id)

/-- The `gte(last_active_at, cutoff)` comparison on a nullable column:
a null timestamp never satisfies it. -/
def freshSince (t? : Option Int) (cutoff : Int) : Bool :=
  match t? with
  | some t => cutoff ≤ t
  | none => false

/-- The online-users query: `presence_status = 'online'`,
`last_active_at ≥ now − 2 min`, excluding the requester. -/
def onlineUsers (s : Store) (me : Nat) (now : Int) : List DbUser :=
  s.users.filter (fun u =>
    u.presence_status = "online" && freshSince u.last_active_at (now - 120000) && u.id ≠ me)

/-- `availableUsers`: the online users minus the blocked set. -/
def availableUsers (s : Store) (me : Nat) (now : Int) : List DbUser :=
  (onlineUsers s me now).filter (fun u => ¬((blockedUserIds s me).contains u.id))

/-- The recent-locations query: fixes of the candidate ids recorded within
the last 5 minutes. -/
def recentLocations (s : Store) (userIds : List Nat) (now : Int) : List DbLocation :=
  s.locations.filter (fun l => userIds.contains l.user_id && now - 300000 ≤ l.recorded_at)

/-- The most recent qualifying fix of one user (the query sorts by
`recorded_at` descending and the first row per user wins when filling the
`userLocations` map; on equal timestamps the earlier row wins, matching a
stable descending sort). -/
def userLocation (s : Store) (userIds : List Nat) (now : Int) (uid : Nat) :
    Option (ℚ × ℚ) :=
  match (recentLocations s userIds now).filter (fun l => l.user_id = uid) with
  | [] => none
  | l :: ls =>
    let best := ls.foldl (fun acc l => if acc.recorded_at < l.recorded_at then l else acc) l
    some (best.latitude, best.longitude)

/-- One element of the response list of `GET /api/users/nearby`. -/
structure NearbyEntry where
  id : Nat
  name : String
  profile_image_url : Option String
  distance_km : ℚ
deriving DecidableEq

/-- JavaScript `u.email.split('@')[0]`: the prefix before the first `@`. -/
def emailLocalPart (e : String) : String :=
  String.mk (e.data.takeWhile (fun c => c ≠ '@'))

/-- The projected display name: `u.name || u.email.split('@')[0]`
(a null or empty name falls back to the local part of the email). -/
def displayName (u : DbUser) : String :=
  match u.name with
  | some n => if n = "" then emailLocalPart u.email else n
  | none => emailLocalPart u.email

/-- The body of the `.map` over `availableUsers`: look up the candidate's
most recent fix (drop the candidate without one), compute the distance
(`none` models a `NaN`, which fails `distance <= radiusKm` exactly like in
JavaScript), keep the candidate only when the unrounded distance is within
the radius, and report the distance rounded to 2 decimals. -/
def candidateEntry (s : Store) (now : Int) (dist : JSNum → JSNum → ℚ → ℚ → Option ℚ)
    (latN lonN : JSNum) (radiusKm : ℚ) (userIds : List Nat) (u : DbUser) :
    Option NearbyEntry :=
  match userLocation s userIds now u.id with
  | none => none
  | some loc =>
    match dist latN lonN loc.1 loc.2 with
    | none => none
    | some d =>
      if d ≤ radiusKm then
        some { id := u.id, name := displayName u,
               profile_image_url := u.profile_image_url, distance_km := round2 d }
      else none

/-- The in-radius candidates with their rounded distances, before sorting
and capping (the `.map(...).filter(u => u !== null)` stage). -/
def nearbySurvivors (s : Store) (me : Nat) (now : Int)
    (dist : JSNum → JSNum → ℚ → ℚ → Option ℚ) (latN lonN : JSNum)
    (radiusKm : ℚ) : List NearbyEntry :=
  let avail := availableUsers s me now
  avail.filterMap (candidateEntry s now dist latN lonN radiusKm (avail.map (fun v => v.id)))

/-- The comparison used by `.sort((a, b) => a.distance_km - b.distance_km)`. -/
def entryLe (a b : NearbyEntry) : Prop := a.distance_km ≤ b.distance_km

instance : DecidableRel entryLe :=
  fun a b => inferInstanceAs (Decidable (a.distance_km ≤ b.distance_km))

instance : IsTotal NearbyEntry entryLe :=
  ⟨fun a b => le_total a.distance_km b.distance_km⟩

instance : IsTrans NearbyEntry entryLe :=
  ⟨fun _ _ _ h1 h2 => le_trans h1 h2⟩

/-- `nearbyUsers`: the final response list — survivors sorted ascending by
rounded distance (JavaScript sort is stable; so is insertion sort) and
capped at 50 entries. -/
def nearbyUsers (s : Store) (me : Nat) (now : Int)
    (dist : JSNum → JSNum → ℚ → ℚ → Option ℚ) (latN lonN : JSNum)
    (radiusKm : ℚ) : List NearbyEntry :=
  (List.insertionSort entryLe (nearbySurvivors s me now dist latN lonN radiusKm)).take 50

/-- The outcome of the nearby endpoint after authentication. -/
inductive NearbyResult where
  | err (code : Nat) (msg : String) : NearbyResult
  | ok (users : List NearbyEntry) : NearbyResult
deriving DecidableEq

/-- `GET /api/users/nearby` after authentication and presence of the three
query parameters, starting from their `parseFloat` results: the `isNaN`
validation, then the radius bound, then the pipeline.  An infinite radius
always fails the bound check, so the final catch-all branch is
unreachable. -/
def nearbyHandler (s : Store) (me : Nat) (now : Int)
    (dist : JSNum → JSNum → ℚ → ℚ → Option ℚ)
    (latN lonN radN : JSNum) : NearbyResult :=
  if jsIsNaN latN || jsIsNaN lonN || jsIsNaN radN then
    NearbyResult.err 400 "Invalid lat, lon, or radius"
  else if jsLt radN (JSNum.num 0) || jsLt (JSNum.num 5) radN then
    NearbyResult.err 400 "Radius must be between 0 and 5 km"
  else
    match radN with
    | JSNum.num r => NearbyResult.ok (nearbyUsers s me now dist latN lonN r)
    | _ => NearbyResult.ok []

/-! ### Properties of the coordinate sanitizer -/

/-- `jsTrunc` is above `q - 1`. -/
theorem jsTrunc_gt (q : ℚ) : q - 1 < (jsTrunc q : ℚ) := by
  unfold jsTrunc
  split
  · exact Int.sub_one_lt_floor q
  · calc q - 1 < q := by linarith
      _ ≤ (⌈q⌉ : ℚ) := Int.le_ceil q

/-- `jsTrunc` is below `q + 1`. -/
theorem jsTrunc_lt (q : ℚ) : (jsTrunc q : ℚ) < q + 1 := by
  unfold jsTrunc
  split
  · calc (⌊q⌋ : ℚ) ≤ q := Int.floor_le q
      _ < q + 1 := by linarith
  · exact Int.ceil_lt_add_one q

/-- `jsTrunc` rounds toward zero: its magnitude never exceeds `q`'s. -/
theorem abs_jsTrunc_le (q : ℚ) : |(jsTrunc q : ℚ)| ≤ |q| := by
  unfold jsTrunc
  split
  · next h =>
    have h0 : (0 : ℚ) ≤ (⌊q⌋ : ℚ) := by
      exact_mod_cast Int.floor_nonneg.mpr h
    rw [abs_of_nonneg h0, abs_of_nonneg h]
    exact Int.floor_le q
  · next h =>
    push_neg at h
    have h0 : (⌈q⌉ : ℚ) ≤ 0 := by
      have : ⌈q⌉ ≤ (0 : ℤ) := Int.ceil_le.mpr (by exact_mod_cast le_of_lt h)
      exact_mod_cast this
    rw [abs_of_nonpos h0, abs_of_nonpos (le_of_lt h)]
    have := Int.le_ceil q
    linarith

/-- `jsTrunc` fixes integers. -/
theorem jsTrunc_intCast (n : ℤ) : jsTrunc (n : ℚ) = n := by
  unfold jsTrunc
  split
  · exact Int.floor_intCast n
  · exact Int.ceil_intCast n

/-- The truncated coordinate times 10000 is an integer (at most 4 decimal
places). -/
theorem truncateCoordinate_mul_10000 (c : ℚ) :
    ∃ n : ℤ, truncateCoordinate c * 10000 = (n : ℚ) := by
  refine ⟨jsTrunc (c * 10000), ?_⟩
  unfold truncateCoordinate
  field_simp

/-- The truncated coordinate is within `0.0001` of the original. -/
theorem abs_truncateCoordinate_sub_lt (c : ℚ) :
    |truncateCoordinate c - c| < 1 / 10000 := by
  unfold truncateCoordinate
  have h1 := jsTrunc_gt (c * 10000)
  have h2 := jsTrunc_lt (c * 10000)
  rw [abs_sub_lt_iff]
  constructor
  · rw [div_sub' _ _ _ (by norm_num : (10000 : ℚ) ≠ 0)]
    rw [div_lt_div_iff (by norm_num) (by norm_num)]
    ring_nf
    ring_nf at h2
    linarith
  · rw [sub_div' _ _ _ (by norm_num : (10000 : ℚ) ≠ 0)]
    rw [div_lt_div_iff (by norm_num) (by norm_num)]
    ring_nf
    ring_nf at h1
    linarith

/-- Truncation is idempotent. -/
theorem truncateCoordinate_idem (c : ℚ) :
    truncateCoordinate (truncateCoordinate c) = truncateCoordinate c := by
  have hm : truncateCoordinate c * 10000 = ((jsTrunc (c * 10000) : ℤ) : ℚ) := by
    unfold truncateCoordinate; field_simp
  show (jsTrunc (truncateCoordinate c * 10000) : ℚ) / 10000 = truncateCoordinate c
  rw [hm, jsTrunc_intCast]
  rfl

/-- Truncation never increases the magnitude of a coordinate. -/
theorem abs_truncateCoordinate_le (c : ℚ) :
    |truncateCoordinate c| ≤ |c| := by
  unfold truncateCoordinate
  have h := abs_jsTrunc_le (c * 10000)
  rw [abs_div, abs_of_nonneg (by norm_num : (0:ℚ) ≤ 10000)]
  rw [div_le_iff (by norm_num : (0:ℚ) < 10000)]
  calc |(jsTrunc (c * 10000) : ℚ)| ≤ |c * 10000| := h
    _ = |c| * 10000 := by rw [abs_mul]; norm_num

/-- C6: for every coordinate `c`, `truncateCoordinate c` truncates toward
zero to at most 4 decimal places (`t * 10000` is an integer and
`|t| ≤ |c|`), satisfies `|t - c| < 0.0001`, and is idempotent. -/
theorem truncateCoordinate_spec (c : ℚ) :
    (∃ n : ℤ, truncateCoordinate c * 10000 = (n : ℚ)) ∧
    |truncateCoordinate c| ≤ |c| ∧
    |truncateCoordinate c - c| < 1 / 10000 ∧
    truncateCoordinate (truncateCoordinate c) = truncateCoordinate c :=
  ⟨truncateCoordinate_mul_10000 c, abs_truncateCoordinate_le c,
   abs_truncateCoordinate_sub_lt c, truncateCoordinate_idem c⟩

/-! ### Structural lemmas about the nearby pipeline -/

/-- If a block row links `me` and `x` in either direction, `x` is in the
blocked set computed for `me`. -/
theorem mem_blockedUserIds_of_block {s : Store} {b : DbBlock} {me x : Nat}
    (hb : b ∈ s.blocks)
    (h : (b.blocker_id = me ∧ b.blocked_id = x) ∨
         (b.blocked_id = me ∧ b.blocker_id = x)) :
    x ∈ blockedUserIds s me := by
  unfold blockedUserIds
  rw [List.mem_map]
  refine ⟨b, ?_, ?_⟩
  · rw [List.mem_filter]
    refine ⟨hb, ?_⟩
    rcases h with ⟨h1, _⟩ | ⟨h1, _⟩ <;> simp [h1]
  · rcases h with ⟨h1, h2⟩ | ⟨h1, h2⟩
    · simp [h1, h2]
    · by_cases hx : b.blocker_id = me
      · rw [if_pos hx]
        omega
      · rw [if_neg hx]
        exact h2

/-- An available user is not in the blocked set. -/
theorem mem_availableUsers_not_blocked {s : Store} {me : Nat} {now : Int}
    {u : DbUser} (hu : u ∈ availableUsers s me now) :
    u.id ∉ blockedUserIds s me := by
  unfold availableUsers at hu
  rw [List.mem_filter] at hu
  intro hmem
  have := hu.2
  simp [hmem] at this

/-- Decomposition of a successful `candidateEntry`: the entry's fields come
from the candidate, its distance from the abstract distance function, and
the unrounded distance is within the radius. -/
theorem candidateEntry_eq_some {s : Store} {now : Int}
    {dist : JSNum → JSNum → ℚ → ℚ → Option ℚ} {latN lonN : JSNum}
    {radiusKm : ℚ} {userIds : List Nat} {u : DbUser} {e : NearbyEntry}
    (h : candidateEntry s now dist latN lonN radiusKm userIds u = some e) :
    ∃ loc d, userLocation s userIds now u.id = some loc ∧
      dist latN lonN loc.1 loc.2 = some d ∧ d ≤ radiusKm ∧
      e = { id := u.id, name := displayName u,
            profile_image_url := u.profile_image_url, distance_km := round2 d } := by
  unfold candidateEntry at h
  split at h
  · exact absurd h (by simp)
  · next loc hloc =>
    split at h
    · exact absurd h (by simp)
    · next d hd =>
      split at h
      · next hle =>
        refine ⟨loc, d, hloc, hd, hle, ?_⟩
        exact (Option.some_injective _ h).symm
      · exact absurd h (by simp)

/-- Every entry of the final response list arises from some available user
through `candidateEntry`. -/
theorem mem_nearbyUsers {s : Store} {me : Nat} {now : Int}
    {dist : JSNum → JSNum → ℚ → ℚ → Option ℚ} {latN lonN : JSNum}
    {radiusKm : ℚ} {e : NearbyEntry}
    (he : e ∈ nearbyUsers s me now dist latN lonN radiusKm) :
    ∃ u ∈ availableUsers s me now,
      candidateEntry s now dist latN lonN radiusKm
        ((availableUsers s me now).map (fun v => v.id)) u = some e := by
  unfold nearbyUsers at he
  have h1 : e ∈ List.insertionSort entryLe (nearbySurvivors s me now dist latN lonN radiusKm) :=
    List.take_subset _ _ he
  have h2 : e ∈ nearbySurvivors s me now dist latN lonN radiusKm :=
    (List.perm_insertionSort entryLe _).mem_iff.mp h1
  unfold nearbySurvivors at h2
  rw [List.mem_filterMap] at h2
  obtain ⟨u, hu, hcand⟩ := h2
  exact ⟨u, hu, hcand⟩

/-- A successful response of the handler is either the pipeline output for
a finite radius, or (in the unreachable infinite-radius branch) empty. -/
theorem nearbyHandler_ok_cases {s : Store} {me : Nat} {now : Int}
    {dist : JSNum → JSNum → ℚ → ℚ → Option ℚ} {latN lonN radN : JSNum}
    {l : List NearbyEntry}
    (h : nearbyHandler s me now dist latN lonN radN = NearbyResult.ok l) :
    l = [] ∨ ∃ r : ℚ, radN = JSNum.num r ∧ l = nearbyUsers s me now dist latN lonN r := by
  cases radN with
  | nan =>
    unfold nearbyHandler at h
    split at h
    · exact absurd h (by simp)
    · split at h
      · exact absurd h (by simp)
      · left; cases h; rfl
  | inf =>
    unfold nearbyHandler at h
    split at h
    · exact absurd h (by simp)
    · split at h
      · exact absurd h (by simp)
      · left; cases h; rfl
  | negInf =>
    unfold nearbyHandler at h
    split at h
    · exact absurd h (by simp)
    · split at h
      · exact absurd h (by simp)
      · left; cases h; rfl
  | num r =>
    unfold nearbyHandler at h
    split at h
    · exact absurd h (by simp)
    · split at h
      · exact absurd h (by simp)
      · right; refine ⟨r, rfl, ?_⟩; cases h; rfl

/-! ### C1: symmetric invisibility of blocked pairs -/

/-- C1: for every pair of users A and B such that a block record exists in
either direction, the result list of `findNearby` invoked by A never
contains B, and the result list of `findNearby` invoked by B never
contains A. -/
theorem nearby_blocked_pair_invisible
    (s : Store) (A B : Nat) (now : Int)
    (dist : JSNum → JSNum → ℚ → ℚ → Option ℚ) (latN lonN radN : JSNum)
    (hblock : ∃ b ∈ s.blocks,
      (b.blocker_id = A ∧ b.blocked_id = B) ∨ (b.blocker_id = B ∧ b.blocked_id = A)) :
    (∀ l, nearbyHandler s A now dist latN lonN radN = NearbyResult.ok l →
      ∀ e ∈ l, e.id ≠ B) ∧
    (∀ l, nearbyHandler s B now dist latN lonN radN = NearbyResult.ok l →
      ∀ e ∈ l, e.id ≠ A) := by
  obtain ⟨b, hb, hdir⟩ := hblock
  have hBA : B ∈ blockedUserIds s A := mem_blockedUserIds_of_block hb (by tauto)
  have hAB : A ∈ blockedUserIds s B := mem_blockedUserIds_of_block hb (by tauto)
  constructor
  · intro l hl e he
    rcases nearbyHandler_ok_cases hl with rfl | ⟨r, _, rfl⟩
    · cases he
    · obtain ⟨u, hu, hcand⟩ := mem_nearbyUsers he
      obtain ⟨loc, d, _, _, _, heq⟩ := candidateEntry_eq_some hcand
      subst heq
      intro hid
      simp only at hid
      exact mem_availableUsers_not_blocked hu (by rw [hid]; exact hBA)
  · intro l hl e he
    rcases nearbyHandler_ok_cases hl with rfl | ⟨r, _, rfl⟩
    · cases he
    · obtain ⟨u, hu, hcand⟩ := mem_nearbyUsers he
      obtain ⟨loc, d, _, _, _, heq⟩ := candidateEntry_eq_some hcand
      subst heq
      intro hid
      simp only at hid
      exact mem_availableUsers_not_blocked hu (by rw [hid]; exact hAB)

/-- A concrete store: Alice (id 0) has blocked Bob (id 1); Carol (id 2) is
online with a fresh fix.  Queried by Alice, the pipeline returns only
Carol. -/
def uAlice : DbUser :=
  { id := 0, name := some "alice", email := "alice@example.com",
    profile_image_url := none, presence_status := "online",
    last_active_at := some 1000000 }

def uBob : DbUser :=
  { id := 1, name := some "bob", email := "bob@example.com",
    profile_image_url := none, presence_status := "online",
    last_active_at := some 1000000 }

def uCarol : DbUser :=
  { id := 2, name := some "carol", email := "carol@example.com",
    profile_image_url := none, presence_status := "online",
    last_active_at := some 1000000 }

def sBlocked : Store :=
  { users := [uAlice, uBob, uCarol]
    blocks := [{ blocker_id := 0, blocked_id := 1, created_at := 0 }]
    locations :=
      [{ user_id := 1, latitude := 1, longitude := 0, accuracy := none,
         speed := none, heading := none, recorded_at := 1000000, created_at := 1000000 },
       { user_id := 2, latitude := 2, longitude := 0, accuracy := none,
         speed := none, heading := none, recorded_at := 1000000, created_at := 1000000 }] }

/-- A concrete stand-in for the Haversine function that reports the
candidate's stored latitude as its distance. -/
def distLat : JSNum → JSNum → ℚ → ℚ → Option ℚ := fun _ _ la _ => some la

def eCarol : NearbyEntry :=
  { id := 2, name := "carol", profile_image_url := none, distance_km := 2 }

/-- Witness for C1: at the concrete store, Alice's query returns the
single entry for Carol, whose id differs from blocked Bob's. -/
theorem nearby_blocked_pair_invisible_witness : eCarol.id ≠ 1 :=
  (nearby_blocked_pair_invisible sBlocked 0 1 1000000 distLat
      (JSNum.num 0) (JSNum.num 0) (JSNum.num 5)
      ⟨{ blocker_id := 0, blocked_id := 1, created_at := 0 },
        by with_unfolding_all decide, Or.inl ⟨rfl, rfl⟩⟩).1
    [eCarol] (by with_unfolding_all decide) eCarol (by with_unfolding_all decide)

/-! ### C2: ordering and capping of the response -/

/-- C2: every successful `findNearby` result is sorted ascending by the
rounded `distance_km`, its length is the number of surviving candidates
capped at 50 (so at most 50, and exactly 50 whenever more than 50
survive), and every returned entry's distance is at most that of every
survivor cut off by the cap. -/
theorem nearby_sorted_and_capped
    (s : Store) (me : Nat) (now : Int)
    (dist : JSNum → JSNum → ℚ → ℚ → Option ℚ) (latN lonN : JSNum) (radiusKm : ℚ) :
    List.Pairwise (fun a b : NearbyEntry => a.distance_km ≤ b.distance_km)
      (nearbyUsers s me now dist latN lonN radiusKm) ∧
    (nearbyUsers s me now dist latN lonN radiusKm).length =
      min 50 (nearbySurvivors s me now dist latN lonN radiusKm).length ∧
    (∀ a ∈ nearbyUsers s me now dist latN lonN radiusKm,
      ∀ b ∈ (List.insertionSort entryLe
        (nearbySurvivors s me now dist latN lonN radiusKm)).drop 50,
        a.distance_km ≤ b.distance_km) := by
  have hsort : List.Sorted entryLe
      (List.insertionSort entryLe (nearbySurvivors s me now dist latN lonN radiusKm)) :=
    List.sorted_insertionSort entryLe _
  refine ⟨?_, ?_, ?_⟩
  · exact List.Pairwise.sublist (List.take_sublist _ _) hsort
  · unfold nearbyUsers
    rw [List.length_take, List.length_insertionSort]
  · intro a ha b hb
    have hsplit := List.take_append_drop 50
      (List.insertionSort entryLe (nearbySurvivors s me now dist latN lonN radiusKm))
    have hp : List.Pairwise entryLe
        ((List.insertionSort entryLe (nearbySurvivors s me now dist latN lonN radiusKm)).take 50 ++
         (List.insertionSort entryLe (nearbySurvivors s me now dist latN lonN radiusKm)).drop 50) := by
      rw [hsplit]; exact hsort
    exact (List.pairwise_append.mp hp).2.2 a ha b hb

/-- Witness for C2 at the concrete store of C1's scenario: the result
length is the survivor count capped at 50. -/
theorem nearby_sorted_and_capped_witness :
    (nearbyUsers sBlocked 0 1000000 distLat (JSNum.num 0) (JSNum.num 0) 5).length =
      min 50 (nearbySurvivors sBlocked 0 1000000 distLat (JSNum.num 0) (JSNum.num 0) 5).length :=
  (nearby_sorted_and_capped sBlocked 0 1000000 distLat (JSNum.num 0) (JSNum.num 0) 5).2.1

/-! ### C3: the radius precondition -/

/-- The empty store, used to show that validation failures do not depend
on any store contents. -/
def emptyStore : Store := { users := [], blocks := [], locations := [] }

/-- C3: with finite `lat` and `lon`, a radius strictly below 0 or strictly
above 5 fails with InvalidArgument (HTTP 400) for every store — the check
precedes any store access — while radius 0 and radius 5 pass the radius
precondition and reach the pipeline. -/
theorem nearby_radius_bound
    (me : Nat) (now : Int) (dist : JSNum → JSNum → ℚ → ℚ → Option ℚ)
    (la lo r : ℚ) (s : Store) :
    ((r < 0 ∨ 5 < r) → ∀ s' : Store,
      nearbyHandler s' me now dist (JSNum.num la) (JSNum.num lo) (JSNum.num r) =
        NearbyResult.err 400 "Radius must be between 0 and 5 km") ∧
    nearbyHandler s me now dist (JSNum.num la) (JSNum.num lo) (JSNum.num 0) =
      NearbyResult.ok (nearbyUsers s me now dist (JSNum.num la) (JSNum.num lo) 0) ∧
    nearbyHandler s me now dist (JSNum.num la) (JSNum.num lo) (JSNum.num 5) =
      NearbyResult.ok (nearbyUsers s me now dist (JSNum.num la) (JSNum.num lo) 5) := by
  refine ⟨?_, ?_, ?_⟩
  · intro hr s'
    unfold nearbyHandler
    have hcond : (jsLt (JSNum.num r) (JSNum.num 0) || jsLt (JSNum.num 5) (JSNum.num r)) = true := by
      rcases hr with h | h <;> simp [jsLt, h]
    simp [jsIsNaN, hcond]
  · unfold nearbyHandler
    norm_num [jsIsNaN, jsLt]
  · unfold nearbyHandler
    norm_num [jsIsNaN, jsLt]

/-- Witness for C3: radius 6 is rejected on the empty store, and radius 0
and 5 are accepted there. -/
theorem nearby_radius_bound_witness :
    nearbyHandler emptyStore 0 0 distLat (JSNum.num 0) (JSNum.num 0) (JSNum.num 6) =
      NearbyResult.err 400 "Radius must be between 0 and 5 km" :=
  (nearby_radius_bound 0 0 distLat 0 0 6 emptyStore).1
    (Or.inr (by norm_num)) emptyStore

/-! ### C4: the numeric-parse validation only rejects NaN -/

/-- C4 counterexample: a request whose `lat` parses to `Infinity` (for
example the string `"Infinity"` or `"1e999"`) is NOT rejected: with a valid
radius it passes validation and produces a result list.  This contradicts
the claim that every non-finite parse fails with InvalidArgument. -/
theorem nearby_infinite_lat_not_rejected :
    nearbyHandler emptyStore 0 0 distLat JSNum.inf (JSNum.num 0) (JSNum.num 1) =
      NearbyResult.ok [] := by
  with_unfolding_all decide

/-- C4 (amended): only a `NaN` parse of `lat`, `lon` or `radiusKm` triggers
the InvalidArgument response of the numeric validation; an infinite radius
is nevertheless rejected by the subsequent radius bound, while an infinite
`lat` or `lon` passes validation and a result list is produced. -/
theorem nearby_nan_rejected
    (s : Store) (me : Nat) (now : Int)
    (dist : JSNum → JSNum → ℚ → ℚ → Option ℚ) (latN lonN radN : JSNum) (r : ℚ) :
    ((latN = JSNum.nan ∨ lonN = JSNum.nan ∨ radN = JSNum.nan) →
      nearbyHandler s me now dist latN lonN radN =
        NearbyResult.err 400 "Invalid lat, lon, or radius") ∧
    (¬latN = JSNum.nan → ¬lonN = JSNum.nan →
      nearbyHandler s me now dist latN lonN JSNum.inf =
        NearbyResult.err 400 "Radius must be between 0 and 5 km") ∧
    (¬lonN = JSNum.nan → 0 ≤ r → r ≤ 5 →
      nearbyHandler s me now dist JSNum.inf lonN (JSNum.num r) =
        NearbyResult.ok (nearbyUsers s me now dist JSNum.inf lonN r)) := by
  refine ⟨?_, ?_, ?_⟩
  · intro h
    unfold nearbyHandler
    rcases h with h | h | h <;> subst h <;> simp [jsIsNaN]
  · intro h1 h2
    unfold nearbyHandler
    have e1 : jsIsNaN latN = false := by cases latN <;> simp [jsIsNaN] <;> simp_all
    have e2 : jsIsNaN lonN = false := by cases lonN <;> simp [jsIsNaN] <;> simp_all
    have e3 : jsLt (JSNum.num 5) JSNum.inf = true := by simp [jsLt]
    simp [e1, e2, e3, jsIsNaN, jsLt]
  · intro h2 hr0 hr5
    unfold nearbyHandler
    have e2 : jsIsNaN lonN = false := by cases lonN <;> simp [jsIsNaN] <;> simp_all
    have e3 : jsLt (JSNum.num r) (JSNum.num 0) = false := by
      simp [jsLt]; linarith
    have e4 : jsLt (JSNum.num 5) (JSNum.num r) = false := by
      simp [jsLt]; linarith
    simp [e2, e3, e4, jsIsNaN]

/-- Witness for the amended C4: a `NaN` latitude is rejected, an infinite
radius is rejected by the bound, and an infinite latitude with radius 1
yields a (here empty) result list. -/
theorem nearby_nan_rejected_witness :
    nearbyHandler emptyStore 0 0 distLat JSNum.nan (JSNum.num 0) (JSNum.num 1) =
      NearbyResult.err 400 "Invalid lat, lon, or radius" ∧
    nearbyHandler emptyStore 0 0 distLat (JSNum.num 0) (JSNum.num 0) JSNum.inf =
      NearbyResult.err 400 "Radius must be between 0 and 5 km" ∧
    nearbyHandler emptyStore 0 0 distLat JSNum.inf (JSNum.num 0) (JSNum.num 1) =
      NearbyResult.ok (nearbyUsers emptyStore 0 0 distLat JSNum.inf (JSNum.num 0) 1) :=
  ⟨(nearby_nan_rejected emptyStore 0 0 distLat JSNum.nan (JSNum.num 0) (JSNum.num 1) 1).1
      (Or.inl rfl),
   (nearby_nan_rejected emptyStore 0 0 distLat (JSNum.num 0) (JSNum.num 0) JSNum.inf 1).2.1
      (by with_unfolding_all decide) (by with_unfolding_all decide),
   (nearby_nan_rejected emptyStore 0 0 distLat JSNum.inf (JSNum.num 0) JSNum.nan 1).2.2
      (by with_unfolding_all decide) (by norm_num) (by norm_num)⟩

/-! ### C5: the 120-second online window -/

/-- `freshSince` holds exactly when the nullable timestamp is present and
at or after the cutoff. -/
theorem freshSince_iff (t? : Option Int) (cutoff : Int) :
    freshSince t? cutoff = true ↔ ∃ t, t? = some t ∧ cutoff ≤ t := by
  cases t? <;> simp [freshSince]

/-- C5: the online-users query returns exactly the stored users whose
presence status is `online` and whose last-activity timestamp is at or
after `now` minus 120 seconds, excluding the requester. -/
theorem onlineUsers_mem_iff (s : Store) (me : Nat) (now : Int) (u : DbUser) :
    u ∈ onlineUsers s me now ↔
      u ∈ s.users ∧ u.presence_status = "online" ∧
      (∃ t, u.last_active_at = some t ∧ now - 120000 ≤ t) ∧ u.id ≠ me := by
  unfold onlineUsers
  rw [List.mem_filter]
  simp only [Bool.and_eq_true, decide_eq_true_eq, freshSince_iff]
  tauto

/-- A concrete store for the staleness boundary: at `now = 1000000` ms,
user 1 heartbeated 119 s ago and user 2 heartbeated 121 s ago, both with
status `online`. -/
def uMe : DbUser :=
  { id := 0, name := some "me", email := "me@example.com",
    profile_image_url := none, presence_status := "online",
    last_active_at := some 1000000 }

def uFresh : DbUser :=
  { id := 1, name := some "fresh", email := "fresh@example.com",
    profile_image_url := none, presence_status := "online",
    last_active_at := some 881000 }

def uStale : DbUser :=
  { id := 2, name := some "stale", email := "stale@example.com",
    profile_image_url := none, presence_status := "online",
    last_active_at := some 879000 }

def sFresh : Store :=
  { users := [uMe, uFresh, uStale], blocks := [], locations := [] }

/-- Witness for C5: the user whose last activity is 119 s old is included,
the one 121 s old is excluded. -/
theorem onlineUsers_mem_iff_witness :
    uFresh ∈ onlineUsers sFresh 0 1000000 ∧ uStale ∉ onlineUsers sFresh 0 1000000 :=
  ⟨(onlineUsers_mem_iff sFresh 0 1000000 uFresh).mpr
      ⟨List.Mem.tail uMe (List.Mem.head [uStale]), rfl,
       ⟨881000, rfl, by norm_num⟩, by norm_num [uFresh]⟩,
   fun h => by
    obtain ⟨-, -, ⟨t, ht, hle⟩, -⟩ := (onlineUsers_mem_iff sFresh 0 1000000 uStale).mp h
    have h879 : (some (879000 : Int)) = some t := ht
    have := Option.some.inj h879
    omega⟩

/-! ### C7: coordinates are truncated before persistence -/

/-- C7: every location fix persisted by a successful `appendBatch` has its
latitude and longitude truncated toward zero to at most 4 decimal places
before being written: the rows appended to the store are exactly the
sanitised fixes, each coordinate the truncation of the corresponding raw
input (hence a multiple of 1/10000). -/
theorem appendBatch_truncated
    (s : Store) (callerId userId : Nat) (locs : List LocationFix) (now : Int)
    (s' : Store) (n : Nat)
    (h : appendBatch s callerId userId locs now = Except.ok (s', n)) :
    s'.locations = s.locations ++ locs.map (processLocation userId now) ∧
    n = locs.length ∧
    ∀ row ∈ locs.map (processLocation userId now),
      ∃ fix ∈ locs,
        row.latitude = truncateCoordinate fix.latitude ∧
        row.longitude = truncateCoordinate fix.longitude ∧
        (∃ a : ℤ, row.latitude * 10000 = (a : ℚ)) ∧
        (∃ b : ℤ, row.longitude * 10000 = (b : ℚ)) := by
  unfold appendBatch at h
  split at h
  · exact absurd h (by simp)
  · split at h
    · exact absurd h (by simp)
    · split at h
      · exact absurd h (by simp)
      · simp only [Except.ok.injEq, Prod.mk.injEq] at h
        obtain ⟨hs, hn⟩ := h
        refine ⟨?_, ?_, ?_⟩
        · rw [← hs]
        · rw [← hn, List.length_map]
        · intro row hrow
          rw [List.mem_map] at hrow
          obtain ⟨fix, hfix, hrf⟩ := hrow
          refine ⟨fix, hfix, ?_, ?_, ?_, ?_⟩
          · rw [← hrf]; rfl
          · rw [← hrf]; rfl
          · rw [← hrf]
            exact truncateCoordinate_mul_10000 fix.latitude
          · rw [← hrf]
            exact truncateCoordinate_mul_10000 fix.longitude

/-- A raw fix with more than 4 decimal places in both coordinates. -/
def rawFix : LocationFix :=
  { latitude := 123456789/10000000, longitude := -987654321/10000000,
    accuracy := none, speed := none, heading := none, recordedAt := 500 }

def sOneUser : Store := { users := [uMe], blocks := [], locations := [] }

def sOneUserLoc : Store :=
  { users := [uMe], blocks := [], locations := [processLocation 0 600 rawFix] }

/-- Witness for C7: a concrete successful batch append of one raw fix
stores exactly its sanitised row. -/
theorem appendBatch_truncated_witness :
    sOneUserLoc.locations = sOneUser.locations ++ [rawFix].map (processLocation 0 600) :=
  (appendBatch_truncated sOneUser 0 0 [rawFix] 600 sOneUserLoc 1
    (by with_unfolding_all rfl)).1

/-! ### C9: heartbeat does not validate the supplied status -/

/-- C9: `heartbeat` with any non-empty status string — also one outside
`{online, offline}` — succeeds and persists that string verbatim as the
user's presence status, while `setStatus` rejects the same string with
InvalidArgument. -/
theorem heartbeat_status_unvalidated
    (s : Store) (uid : Nat) (st : String) (now : Int) (hst : st ≠ "") :
    (∃ s', heartbeat s uid uid (some st) now = Except.ok s') ∧
    (∀ s' u, heartbeat s uid uid (some st) now = Except.ok s' →
      u ∈ s'.users → u.id = uid → u.presence_status = st) ∧
    (st ≠ "online" → st ≠ "offline" →
      setStatus s uid (some st) now = Except.error (400, "Invalid status")) := by
  have hguard : ¬(uid ≠ uid) := fun hne => hne rfl
  refine ⟨?_, ?_, ?_⟩
  · refine ⟨{ s with users := s.users.map (heartbeatUpdate uid (some st) now) }, ?_⟩
    unfold heartbeat
    rw [if_neg hguard]
  · intro s' u hok hu hid
    unfold heartbeat at hok
    rw [if_neg hguard] at hok
    have hs' : { s with users := s.users.map (heartbeatUpdate uid (some st) now) } = s' :=
      Except.ok.inj hok
    rw [← hs'] at hu
    simp only [List.mem_map] at hu
    obtain ⟨v, hv, hvu⟩ := hu
    unfold heartbeatUpdate at hvu
    by_cases hvid : v.id = uid
    · rw [if_pos hvid] at hvu
      simp only [if_neg hst] at hvu
      rw [← hvu]
    · rw [if_neg hvid] at hvu
      rw [← hvu] at hid
      exact absurd hid hvid
  · intro h1 h2
    have hcond : st = "" ∨ ¬(st = "online" ∨ st = "offline") :=
      Or.inr (fun hor => by rcases hor with h | h <;> [exact h1 h; exact h2 h])
    simp only [setStatus, if_pos hcond]

/-- The store row after heartbeating with the arbitrary status "banana". -/
def uBanana : DbUser :=
  { id := 0, name := some "me", email := "me@example.com",
    profile_image_url := none, presence_status := "banana",
    last_active_at := some 777 }

def sBanana : Store := { users := [uBanana], blocks := [], locations := [] }

/-- Witness for C9: heartbeating with status "banana" persists it, while
`setStatus` rejects the same string. -/
theorem heartbeat_status_unvalidated_witness :
    uBanana.presence_status = "banana" ∧
    setStatus sOneUser 0 (some "banana") 777 = Except.error (400, "Invalid status") :=
  ⟨(heartbeat_status_unvalidated sOneUser 0 "banana" 777 (by with_unfolding_all decide)).2.1
      sBanana uBanana (by with_unfolding_all rfl) (List.Mem.head []) rfl,
   (heartbeat_status_unvalidated sOneUser 0 "banana" 777 (by with_unfolding_all decide)).2.2
      (by with_unfolding_all decide) (by with_unfolding_all decide)⟩

/-! ### C10: radius filtering versus rounded reporting -/

/-- A store with one fresh online candidate whose (stand-in) distance is
4.999 km. -/
def uNear : DbUser :=
  { id := 1, name := some "near", email := "near@example.com",
    profile_image_url := none, presence_status := "online",
    last_active_at := some 1000000 }

def sRound : Store :=
  { users := [uNear]
    blocks := []
    locations :=
      [{ user_id := 1, latitude := 4999/1000, longitude := 0, accuracy := none,
         speed := none, heading := none, recorded_at := 1000000, created_at := 1000000 }] }

def eNear : NearbyEntry :=
  { id := 1, name := "near", profile_image_url := none, distance_km := 5 }

/-- C10: the radius filter compares the unrounded distance, the reported
`distance_km` is rounded half-up to 2 decimals afterwards: every returned
entry stems from an unrounded distance within the radius, the rounding
adds at most 0.005 km — and for some inputs (a candidate at 4.999 km with
radius 4.999) the reported `distance_km` strictly exceeds the radius. -/
theorem nearby_reported_distance_rounded
    (s : Store) (me : Nat) (now : Int)
    (dist : JSNum → JSNum → ℚ → ℚ → Option ℚ) (latN lonN : JSNum)
    (radiusKm : ℚ) (e : NearbyEntry)
    (he : e ∈ nearbyUsers s me now dist latN lonN radiusKm) :
    (∃ d : ℚ, d ≤ radiusKm ∧ e.distance_km = round2 d ∧ round2 d ≤ d + 5/1000) ∧
    (eNear ∈ nearbyUsers sRound 0 1000000 distLat (JSNum.num 0) (JSNum.num 0) (4999/1000) ∧
      4999/1000 < eNear.distance_km) := by
  constructor
  · obtain ⟨u, hu, hcand⟩ := mem_nearbyUsers he
    obtain ⟨loc, d, hloc, hd, hle, heq⟩ := candidateEntry_eq_some hcand
    refine ⟨d, hle, by rw [heq], ?_⟩
    unfold round2
    have hfl := Int.floor_le (d * 100 + 1/2)
    rw [div_le_iff (by norm_num : (0:ℚ) < 100)]
    linarith
  · exact ⟨by with_unfolding_all decide, by norm_num [eNear]⟩

/-- Witness for C10: applying the theorem to the concrete 4.999 km
candidate. -/
theorem nearby_reported_distance_rounded_witness :
    ∃ d : ℚ, d ≤ 4999/1000 ∧ eNear.distance_km = round2 d ∧ round2 d ≤ d + 5/1000 :=
  (nearby_reported_distance_rounded sRound 0 1000000 distLat
    (JSNum.num 0) (JSNum.num 0) (4999/1000) eNear (by with_unfolding_all decide)).1

/-! ### C8: capping and ordering on 60 candidates -/

/-- 60 online, visible candidates (ids 1..60), each with a fresh fix whose
stored latitude k serves as its stand-in distance of k kilometres. -/
def store60 : Store :=
  { users := (List.range 60).map (fun k =>
      { id := k + 1, name := some "candidate", email := "candidate@example.com",
        profile_image_url := none, presence_status := "online",
        last_active_at := some 1000000 })
    blocks := []
    locations := (List.range 60).map (fun k =>
      { user_id := k + 1, latitude := (k : ℚ) + 1, longitude := 0, accuracy := none,
        speed := none, heading := none, recorded_at := 1000000, created_at := 1000000 }) }

/-- C8 counterexample: with 60 online, visible, in-range candidates at
distances 1..60 km, the `findNearby` query with a 60 km radius does not
return 50 entries — it fails the radius bound (cap 5 km) with
InvalidArgument. -/
theorem nearby_radius60_rejected :
    nearbyHandler store60 0 1000000 distLat (JSNum.num 0) (JSNum.num 0) (JSNum.num 60) =
      NearbyResult.err 400 "Radius must be between 0 and 5 km" := by
  with_unfolding_all decide

/-- An executable check that a list of entries is strictly ascending by
`distance_km`. -/
def strictAscending : List NearbyEntry → Bool
  | [] => true
  | [_] => true
  | a :: b :: rest => (a.distance_km < b.distance_km) && strictAscending (b :: rest)

/-- `strictAscending` coincides with chained strict comparison of
adjacent distances. -/
theorem strictAscending_iff (l : List NearbyEntry) :
    strictAscending l = true ↔
      List.Chain' (fun a b : NearbyEntry => a.distance_km < b.distance_km) l := by
  induction l with
  | nil => simp [strictAscending]
  | cons a t ih =>
    cases t with
    | nil => simp [strictAscending]
    | cons b rest =>
      rw [List.chain'_cons, ← ih]
      simp [strictAscending]

/-- C8 (amended): the radius-60 query itself fails InvalidArgument at the
radius bound; the capping/ordering property holds of the post-validation
pipeline: on the same 60 candidates at distances 1..60 km within a 60 km
radius it returns exactly 50 entries, strictly ascending by distance. -/
theorem nearby60_caps_at_50_strictly_ascending :
    (nearbyUsers store60 0 1000000 distLat (JSNum.num 0) (JSNum.num 0) 60).length = 50 ∧
    List.Chain' (fun a b : NearbyEntry => a.distance_km < b.distance_km)
      (nearbyUsers store60 0 1000000 distLat (JSNum.num 0) (JSNum.num 0) 60) :=
  ⟨by with_unfolding_all decide,
   (strictAscending_iff _).mp (by with_unfolding_all decide)⟩
